import Mathlib

/-!
# Verification of `src/groups.py`

A shallow embedding of the small groups module: an `Element` class wrapping a
value together with its owning group, a standalone `CyclicGroup` class, a
`Group` base class with the subclasses `CyclicGroupInherit` and
`GeneralLinearGroup`, and the numpy fragments they use (`np.asarray`, `@`).

Machine-level conventions of the embedding:
* Python integers are arbitrary precision and become `ℤ`.
* Python floats and numpy numeric entries are idealised as exact rationals
  (`ℚ`); every concrete number appearing in the development is exactly
  representable.  Numpy's fixed-width int64 / float64 arithmetic (wrap,
  rounding, overflow to `inf`) is not modelled, and no theorem in this file
  depends on the exact entries of a computed matrix product.
* Exceptions become `Except PyErr`, with the error kind (`ValueError`,
  `TypeError`, `AttributeError`, `ZeroDivisionError`) preserved and messages
  dropped.
-/

/-- The kinds of exception the embedded code can raise.  The spec's
`InvalidValue` is Python's `ValueError`. -/
inductive PyErr where
  | valueError
  | typeError
  | attributeError
  | zeroDivisionError
deriving DecidableEq, Repr

/-- Numpy dtypes, coarsened to the three classes the module can produce:
integer arrays, floating arrays and string (`<U..`) arrays. -/
inductive DType where
  | int
  | float
  | str
deriving DecidableEq, Repr

/-- A numpy `ndarray`: a shape together with a row-major payload.  Numeric
arrays keep their entries in `nums` (exact rationals); string-dtype arrays
keep theirs in `strs`.  The unused payload is empty by construction. -/
structure NDArray where
  shape : List Nat
  dtype : DType
  nums : List ℚ
  strs : List String
deriving DecidableEq, Repr

mutual
/-- A Python runtime value, covering the values the module manipulates:
ints, floats, strings, numpy arrays and (nested) lists. -/
inductive PyVal where
  | int : ℤ → PyVal
  | float : ℚ → PyVal
  | str : String → PyVal
  | ndarray : NDArray → PyVal
  | list : PyList → PyVal

/-- A Python list of values (spelled out so that all recursions below are
structural). -/
inductive PyList where
  | nil : PyList
  | cons : PyVal → PyList → PyList
end

deriving instance DecidableEq for PyVal
deriving instance DecidableEq for PyList

/-- Build a `PyList` from a Lean list (notation helper for concrete values). -/
def PyList.ofList : List PyVal → PyList
  | [] => .nil
  | x :: xs => .cons x (PyList.ofList xs)

/-- `isinstance(value, Integral)`: among the embedded values, exactly the
Python ints are `numbers.Integral`. -/
def PyVal.isIntegral : PyVal → Bool
  | .int _ => true
  | _ => false

/-- Is this value a numpy `ndarray`? -/
def PyVal.isNdarray : PyVal → Bool
  | .ndarray _ => true
  | _ => false

/-- Numeric view of a value, when it has one (ints and floats). -/
def PyVal.toQ : PyVal → Option ℚ
  | .int i => some (i : ℚ)
  | .float q => some q
  | _ => none

/-- Python `a <= b`: defined between numbers and between strings
(lexicographic); a mixed comparison such as `0 <= "x"` raises `TypeError`. -/
def pyLe (a b : PyVal) : Except PyErr Bool :=
  match a.toQ, b.toQ with
  | some x, some y => .ok (decide (x ≤ y))
  | _, _ =>
    match a, b with
    | .str s, .str t => .ok (decide (s ≤ t))
    | _, _ => .error .typeError

/-- Python `a < b`, with the same domain as `pyLe`. -/
def pyLt (a b : PyVal) : Except PyErr Bool :=
  match a.toQ, b.toQ with
  | some x, some y => .ok (decide (x < y))
  | _, _ =>
    match a, b with
    | .str s, .str t => .ok (decide (s < t))
    | _, _ => .error .typeError

/-! ## numpy: `asarray` and `@` -/

/-- Join of the dtypes of the rows being stacked: any string entry makes the
whole array a string array, otherwise any float makes it float. -/
def dtJoinMany (ds : List DType) : DType :=
  if ds.contains .str then .str
  else if ds.contains .float then .float
  else .int

/-- Payload of an array viewed with string dtype (numpy stringifies the
numeric entries when an array is promoted to a string dtype). -/
def NDArray.strData (a : NDArray) : List String :=
  if a.dtype = .str then a.strs else a.nums.map (fun q => toString q)

/-- Stack a list of equal-shaped arrays one level deep, as `np.asarray` does
for a Python list.  Ragged input raises `ValueError`, as in numpy. -/
def npStack (children : List NDArray) : Except PyErr NDArray :=
  match children with
  | [] => .ok ⟨[0], .float, [], []⟩
  | c :: rest =>
    if rest.all (fun a => a.shape == c.shape) then
      let dt := dtJoinMany ((c :: rest).map NDArray.dtype)
      if dt = .str then
        .ok ⟨(c :: rest).length :: c.shape, .str, [],
             ((c :: rest).map NDArray.strData).flatten⟩
      else
        .ok ⟨(c :: rest).length :: c.shape, dt,
             ((c :: rest).map NDArray.nums).flatten, []⟩
    else .error .valueError

mutual
/-- `np.asarray(value)`: scalars become 0-d arrays, an ndarray is returned
unchanged, and a list is coerced elementwise and stacked. -/
def npAsarray : PyVal → Except PyErr NDArray
  | .int i => .ok ⟨[], .int, [(i : ℚ)], []⟩
  | .float q => .ok ⟨[], .float, [q], []⟩
  | .str s => .ok ⟨[], .str, [], [s]⟩
  | .ndarray a => .ok a
  | .list xs =>
    match npAsarrayChildren xs with
    | .ok children => npStack children
    | .error e => .error e

/-- Coerce every entry of a Python list with `npAsarray`. -/
def npAsarrayChildren : PyList → Except PyErr (List NDArray)
  | .nil => .ok []
  | .cons x xs =>
    match npAsarray x, npAsarrayChildren xs with
    | .ok a, .ok as' => .ok (a :: as')
    | .error e, _ => .error e
    | .ok _, .error e => .error e
end

/-- Entry `(i, j)` of the product of an `m × k` and a `k × c` row-major
payload: `Σ_t a[i,t] * b[t,j]`. -/
def matEntry (k c : ℕ) (da db : List ℚ) (i j : ℕ) : ℚ :=
  ((List.range k).map (fun t => da.getD (i * k + t) 0 * db.getD (t * c + j) 0)).sum

/-- Row-major payload of the product of an `m × k` and a `k × c` payload,
with exact rational entry arithmetic.  Real numpy computes in fixed-width
int64 / float64, which can wrap, round or overflow to `inf`; no theorem in
this file depends on the exact entries of a computed product. -/
def matData (m k c : ℕ) (da db : List ℚ) : List ℚ :=
  List.ofFn fun p : Fin (m * c) => matEntry k c da db (p.val / c) (p.val % c)

/-- Result dtype of a numeric matrix product: integer only when both factors
are integer arrays. -/
def dtJoin (a b : DType) : DType :=
  match a, b with
  | .int, .int => .int
  | _, _ => .float

/-- `a @ b` on two ndarrays: string dtypes do not support `matmul`
(`TypeError`); otherwise both operands must be 2-d with matching inner
dimension (`ValueError` if not, which also covers 0-d scalars), and the
result is the row-major rational matrix product. -/
def ndMatmul (a b : NDArray) : Except PyErr PyVal :=
  if a.dtype = .str ∨ b.dtype = .str then .error .typeError
  else
    match a.shape, b.shape with
    | [m, k], [k2, c] =>
      if k = k2 then
        .ok (.ndarray ⟨[m, c], dtJoin a.dtype b.dtype, matData m k c a.nums b.nums, []⟩)
      else .error .valueError
    | _, _ => .error .valueError

/-- Python `a @ b` as it behaves on the module's values: if neither operand
is an ndarray (e.g. two plain lists) the operator is unsupported and raises
`TypeError`; if at least one is an ndarray, numpy coerces the other with
`asarray` and multiplies. -/
def pyMatmul (a b : PyVal) : Except PyErr PyVal :=
  if a.isNdarray || b.isNdarray then
    match npAsarray a, npAsarray b with
    | .ok x, .ok y => ndMatmul x y
    | .error e, _ => .error e
    | .ok _, .error e => .error e
  else .error .typeError

/-! ## The groups module itself -/

/-- `(a + b) % n` on the module's values.  Python `%` on integers is floored
modulo (`Int.fmod`) and `% 0` raises `ZeroDivisionError`.  The module only
ever applies this to validated (hence integer) values; `+` on other operand
kinds is not modelled and mapped to `TypeError`. -/
def cyclicOp (n : ℤ) (a b : PyVal) : Except PyErr PyVal :=
  match a, b with
  | .int i, .int j =>
    if n = 0 then .error .zeroDivisionError
    else .ok (.int ((i + j).fmod n))
  | _, _ => .error .typeError

namespace CyclicGroup

/-- `CyclicGroup.validate`, exactly as written in the source:

    if not isinstance(value, Integral) and 0 <= value < self.order:
        raise ValueError(...)

The comparison chain short-circuits, and the whole guard is a single
conjunction, so an `Integral` value never raises. -/
def validate (order : ℤ) (v : PyVal) : Except PyErr Unit :=
  if v.isIntegral then .ok ()
  else
    match pyLe (.int 0) v with
    | .error e => .error e
    | .ok false => .ok ()
    | .ok true =>
      match pyLt v (.int order) with
      | .error e => .error e
      | .ok true => .error .valueError
      | .ok false => .ok ()

end CyclicGroup

namespace CyclicGroupInherit

/-- `CyclicGroupInherit._validate`:

    if not (isinstance(value, Integral) and 0 <= int(value) < self.n):
        raise ValueError(...)

For the embedded `Integral` values (`PyVal.int i`), `int(value)` is `i`. -/
def validate (n : ℤ) (v : PyVal) : Except PyErr Unit :=
  match v with
  | .int i => if 0 ≤ i ∧ i < n then .ok () else .error .valueError
  | _ => .error .valueError

end CyclicGroupInherit

namespace GeneralLinearGroup

/-- `GeneralLinearGroup._validate`:

    value = np.asarray(value)
    if not (value.shape == (self.n, self.n)):
        raise ValueError(...)

A coercion failure inside `np.asarray` propagates (numpy raises
`ValueError` on ragged input). -/
def validate (n : ℤ) (v : PyVal) : Except PyErr Unit :=
  match npAsarray v with
  | .error e => .error e
  | .ok a => if a.shape.map Int.ofNat = [n, n] then .ok () else .error .valueError

end GeneralLinearGroup

/-- The group objects the module can construct: the standalone
`CyclicGroup(order)` class, and the two `Group` subclasses
`CyclicGroupInherit(n)` and `GeneralLinearGroup(n)`. -/
inductive GroupObj where
  | cyclicStandalone : ℤ → GroupObj
  | cyclicInherit : ℤ → GroupObj
  | generalLinear : ℤ → GroupObj
deriving DecidableEq, Repr

namespace GroupObj

/-- Attribute lookup of `_validate` on a group object.  The classes
`CyclicGroupInherit` and `GeneralLinearGroup` define `_validate`; the
standalone `CyclicGroup` class defines only `validate`, so looking up
`_validate` on it fails (`none`, i.e. `AttributeError` at the call site). -/
def validateMethod : GroupObj → Option (PyVal → Except PyErr Unit)
  | .cyclicStandalone _ => none
  | .cyclicInherit n => some (CyclicGroupInherit.validate n)
  | .generalLinear n => some (GeneralLinearGroup.validate n)

/-- `group.operation(a, b)` dispatched on the concrete class. -/
def operation : GroupObj → PyVal → PyVal → Except PyErr PyVal
  | .cyclicStandalone order, a, b => cyclicOp order a b
  | .cyclicInherit n, a, b => cyclicOp n a b
  | .generalLinear _, a, b => pyMatmul a b

/-- The defining parameter (`self.order` or `self.n`). -/
def param : GroupObj → ℤ
  | .cyclicStandalone order => order
  | .cyclicInherit n => n
  | .generalLinear n => n

/-- `type(self).__name__` of the group object. -/
def className : GroupObj → String
  | .cyclicStandalone _ => "CyclicGroup"
  | .cyclicInherit _ => "CyclicGroupInherit"
  | .generalLinear _ => "GeneralLinearGroup"

/-- `str(group)`: `CyclicGroup.__str__` is `f"C{self.order}"`; the `Group`
subclasses use `f"{self.symbol}{self.n}"` with class attribute `symbol`. -/
def displayName : GroupObj → String
  | .cyclicStandalone order => "C" ++ toString order
  | .cyclicInherit n => "C" ++ toString n
  | .generalLinear n => "G" ++ toString n

/-- `repr(group)`: both `CyclicGroup.__repr__` and `Group.__repr__` are
`f"{type(self).__name__}({param!r})"`. -/
def reprStr (g : GroupObj) : String :=
  g.className ++ "(" ++ toString g.param ++ ")"

end GroupObj

deriving instance DecidableEq for Except

/-- An `Element` object: its owning group and its wrapped value
(`self.group`, `self.value`). -/
structure Element where
  group : GroupObj
  value : PyVal
deriving DecidableEq

/-- Outcome of running a fragment of the module, instrumented with the
number of times `group._validate` was invoked along the way (so that where
validation happens is itself a provable property of the embedding). -/
structure Traced (α : Type) where
  result : Except PyErr α
  validateCalls : ℕ
deriving DecidableEq

/-- `Element.__init__(self, group, value)`:

    group._validate(value)
    self.group = group
    self.value = value

Looking up `_validate` happens first; if the group's class has no such
attribute the call raises `AttributeError` before any validation runs. -/
def Element.init (g : GroupObj) (v : PyVal) : Traced Element :=
  match g.validateMethod with
  | none => ⟨.error .attributeError, 0⟩
  | some f =>
    match f v with
    | .ok _ => ⟨.ok ⟨g, v⟩, 1⟩
    | .error e => ⟨.error e, 1⟩

/-- `Element.__mul__(self, other)`:

    return type(self)(self.group,
                      self.group.operation(self.value, other.value))

The operation runs first; its result is then handed to the `Element`
constructor (there is a single `Element` class, so `type(self)` is
`Element`). -/
def Element.mul (e other : Element) : Traced Element :=
  match e.group.operation e.value other.value with
  | .error err => ⟨.error err, 0⟩
  | .ok r => Element.init e.group r

/-- `CyclicGroup.__call__` / `Group.__call__`: `return Element(self, value)`. -/
def GroupObj.call (g : GroupObj) (v : PyVal) : Traced Element :=
  Element.init g v

/-- `str(value)` for the payloads the module prints.  Only integers are
printed by the behaviour under verification; the remaining renderings are
placeholders and no theorem depends on them. -/
def pyStr : PyVal → String
  | .int i => toString i
  | .str s => s
  | .float q => toString q
  | .ndarray _ => "<array>"
  | .list _ => "<list>"

/-- `repr(value)` for the payloads the module prints; `repr` of an int is
its decimal string, `repr` of a str wraps it in quotes. -/
def pyReprVal : PyVal → String
  | .int i => toString i
  | .str s => "'" ++ s ++ "'"
  | .float q => toString q
  | .ndarray _ => "<array>"
  | .list _ => "<list>"

/-- `Element.__str__`: `f"{self.value}_{self.group}"`. -/
def Element.displayStr (e : Element) : String :=
  pyStr e.value ++ "_" ++ e.group.displayName

/-- `Element.__repr__`: `f"{type(self).__name__}({self.group!r}, {self.value!r})"`
(there is a single `Element` class, so the runtime type name is `"Element"`). -/
def Element.reprStr (e : Element) : String :=
  "Element" ++ "(" ++ e.group.reprStr ++ ", " ++ pyReprVal e.value ++ ")"

/-! ## Helper lemmas about the embedded module -/

/-- A value passes `CyclicGroupInherit._validate` exactly when it is an
integer in `[0, n)`. -/
theorem cyclicInherit_validate_ok_iff {n : ℤ} {v : PyVal} :
    CyclicGroupInherit.validate n v = .ok () ↔ ∃ i, v = .int i ∧ 0 ≤ i ∧ i < n := by
  cases v with
  | int i =>
    simp only [CyclicGroupInherit.validate]
    split_ifs with h
    · simp [h]
    · simp [h]
  | float q => simp [CyclicGroupInherit.validate]
  | str s => simp [CyclicGroupInherit.validate]
  | ndarray a => simp [CyclicGroupInherit.validate]
  | list xs => simp [CyclicGroupInherit.validate]

/-- On integer values in range, the cyclic operation is `(a + b) % n` with
the Euclidean (equivalently, for positive `n`, the Python floored)
remainder, and the result is again in `[0, n)`. -/
theorem cyclicOp_int {n a b : ℤ} (ha0 : 0 ≤ a) (han : a < n) :
    cyclicOp n (.int a) (.int b) = .ok (.int ((a + b) % n)) := by
  have hn : 0 < n := lt_of_le_of_lt ha0 han
  simp only [cyclicOp, if_neg (by omega : ¬ n = 0)]
  rw [Int.fmod_eq_emod _ (le_of_lt hn)]

/-- On two non-string ndarrays of shape `m × m`, the general linear
operation succeeds and returns the product array. -/
theorem ndOp_ok (z : ℤ) (m : ℕ) (A B : NDArray)
    (hA : A.dtype ≠ .str) (hB : B.dtype ≠ .str)
    (hsA : A.shape = [m, m]) (hsB : B.shape = [m, m]) :
    GroupObj.operation (.generalLinear z) (.ndarray A) (.ndarray B)
      = .ok (.ndarray ⟨[m, m], dtJoin A.dtype B.dtype, matData m m m A.nums B.nums, []⟩) := by
  show pyMatmul (.ndarray A) (.ndarray B) = _
  simp only [pyMatmul, PyVal.isNdarray, Bool.or_self, if_true, npAsarray]
  simp only [ndMatmul, hsA, hsB]
  simp [hA, hB]

/-- `GeneralLinearGroup._validate` accepts any ndarray of shape `m × m`
against the group of degree `m`. -/
theorem gln_validate_ndarray_ok (m : ℕ) (r : NDArray) (hs : r.shape = [m, m]) :
    GeneralLinearGroup.validate (m : ℤ) (.ndarray r) = .ok () := by
  simp [GeneralLinearGroup.validate, npAsarray, hs]

/-! ## Concrete values used by the boundary theorems -/

/-- The nested Python list `[["a", "b"], ["c", "d"]]`: a 2 × 2 array of
strings once coerced. -/
def strMat : PyVal :=
  .list (.ofList [.list (.ofList [.str "a", .str "b"]),
                  .list (.ofList [.str "c", .str "d"])])

/-- The nested Python list `[[1, 0], [0, 1]]` (the 2 × 2 identity, kept as a
plain list). -/
def listMat : PyVal :=
  .list (.ofList [.list (.ofList [.int 1, .int 0]),
                  .list (.ofList [.int 0, .int 1])])

/-- The 2 × 2 identity as an actual integer ndarray. -/
def eye2 : NDArray := ⟨[2, 2], .int, [1, 0, 0, 1], []⟩

/-- The nested Python list `[[1, 2, 3], [4, 5, 6], [7, 8, 9]]` (3 × 3). -/
def mat3x3 : PyVal :=
  .list (.ofList [.list (.ofList [.int 1, .int 2, .int 3]),
                  .list (.ofList [.int 4, .int 5, .int 6]),
                  .list (.ofList [.int 7, .int 8, .int 9])])

/-- The nested Python list `[[1, 2, 3], [4, 5, 6]]` (2 × 3, not square). -/
def matNonSquare : PyVal :=
  .list (.ofList [.list (.ofList [.int 1, .int 2, .int 3]),
                  .list (.ofList [.int 4, .int 5, .int 6])])

/-- Spec-side predicate, taken from the claim's words: the value is
coercible to a square *numeric* array of shape `n × n`. -/
def coercesToNumericSquare (n : ℤ) (v : PyVal) : Bool :=
  match npAsarray v with
  | .ok a => decide (a.dtype ≠ .str) && decide (a.shape.map Int.ofNat = [n, n])
  | .error _ => false

/-- Spec-side predicate with the numeric requirement dropped: the value is
coercible to an array of shape `n × n` of any dtype. -/
def coercesToSquare (n : ℤ) (v : PyVal) : Bool :=
  match npAsarray v with
  | .ok a => decide (a.shape.map Int.ofNat = [n, n])
  | .error _ => false

/-! ## Claim theorems -/

/-- C1, counterexample: combining the valid elements 2 and 3 of
`CyclicGroupInherit(5)` runs `_validate` once (on the result, inside the
`Element` constructor invoked by `__mul__`), refuting "no validation is
re-run on that result value during combination". -/
theorem combine_revalidates_cex :
    (Element.mul ⟨.cyclicInherit 5, .int 2⟩ ⟨.cyclicInherit 5, .int 3⟩).validateCalls = 1 ∧
    ¬ (Element.mul ⟨.cyclicInherit 5, .int 2⟩ ⟨.cyclicInherit 5, .int 3⟩).validateCalls = 0 := by
  decide

/-- C1, amended: for any two elements of the same group (any group whose
class provides `_validate`), combination computes
`group.operation(self.value, other.value)`, hands it to the `Element`
constructor — so validation IS re-run exactly once on the result — and any
element produced wraps exactly that result value with the same group. -/
theorem combine_builds_element_with_revalidation
    (g : GroupObj) (v1 v2 r : PyVal) (f : PyVal → Except PyErr Unit)
    (hm : g.validateMethod = some f)
    (hop : g.operation v1 v2 = .ok r) :
    (Element.mul ⟨g, v1⟩ ⟨g, v2⟩).validateCalls = 1 ∧
    (f r = .ok () → (Element.mul ⟨g, v1⟩ ⟨g, v2⟩).result = .ok ⟨g, r⟩) ∧
    (∀ e, (Element.mul ⟨g, v1⟩ ⟨g, v2⟩).result = .ok e → e.group = g ∧ e.value = r) := by
  simp only [Element.mul, hop, Element.init, hm]
  cases hfr : f r with
  | ok u =>
    cases u
    refine ⟨rfl, fun _ => rfl, fun e he => ?_⟩
    cases he
    exact ⟨rfl, rfl⟩
  | error err =>
    refine ⟨rfl, fun hok => absurd hok (by simp), fun e he => ?_⟩
    simp at he

/-- C1, witness for the amended theorem at `CyclicGroupInherit(7)`,
elements 3 and 5. -/
theorem combine_builds_element_with_revalidation_witness :
    (Element.mul ⟨.cyclicInherit 7, .int 3⟩ ⟨.cyclicInherit 7, .int 5⟩).validateCalls = 1 ∧
    (CyclicGroupInherit.validate 7 (.int 1) = .ok () →
      (Element.mul ⟨.cyclicInherit 7, .int 3⟩ ⟨.cyclicInherit 7, .int 5⟩).result
        = .ok ⟨.cyclicInherit 7, .int 1⟩) ∧
    (∀ e, (Element.mul ⟨.cyclicInherit 7, .int 3⟩ ⟨.cyclicInherit 7, .int 5⟩).result = .ok e →
      e.group = .cyclicInherit 7 ∧ e.value = .int 1) :=
  combine_builds_element_with_revalidation (.cyclicInherit 7) (.int 3) (.int 5) (.int 1)
    (CyclicGroupInherit.validate 7) rfl (by decide)

/-- C2: evaluation of the validation boundary on both cyclic variants.  The
standalone `CyclicGroup(5).validate` accepts `0` and `4` and rejects `2.5`
as the claim says, but — against the claim — it also silently accepts `-1`
and `5` (its guard is `not isinstance(..) and 0 <= value < order`, which is
false for every `Integral` value).  `CyclicGroupInherit._validate` does
reject `-1` and `5`, matching the spec's stated intent. -/
theorem cyclic_validate_boundary_eval :
    CyclicGroup.validate 5 (.int 0) = .ok () ∧
    CyclicGroup.validate 5 (.int 4) = .ok () ∧
    CyclicGroup.validate 5 (.float (2.5 : ℚ)) = .error .valueError ∧
    CyclicGroup.validate 5 (.int (-1)) = .ok () ∧
    CyclicGroup.validate 5 (.int 5) = .ok () ∧
    CyclicGroupInherit.validate 5 (.int 0) = .ok () ∧
    CyclicGroupInherit.validate 5 (.int 4) = .ok () ∧
    CyclicGroupInherit.validate 5 (.int (-1)) = .error .valueError ∧
    CyclicGroupInherit.validate 5 (.int 5) = .error .valueError ∧
    CyclicGroupInherit.validate 5 (.float (2.5 : ℚ)) = .error .valueError := by
  refine ⟨by decide, by decide, ?_, by decide, by decide,
          by decide, by decide, by decide, by decide, by decide⟩
  norm_num [CyclicGroup.validate, pyLe, pyLt, PyVal.toQ, PyVal.isIntegral]

/-- C3: calling the standalone `CyclicGroup(n)` on any value — valid or not —
raises `AttributeError` before any validation runs, because `Element.__init__`
looks up `group._validate` and the class only defines `validate`. -/
theorem cyclicGroup_call_attribute_error (n : ℤ) (v : PyVal) :
    (GroupObj.call (.cyclicStandalone n) v).result = .error .attributeError ∧
    (GroupObj.call (.cyclicStandalone n) v).validateCalls = 0 :=
  ⟨rfl, rfl⟩

/-- C4: the working cyclic group of order 7 (`CyclicGroupInherit`): elements
3 and 5 are created by calling the group, their product has value
`(3 + 5) % 7 = 1`, and its display string is `"1_C7"`. -/
theorem cyclic7_scenario :
    (GroupObj.call (.cyclicInherit 7) (.int 3)).result = .ok ⟨.cyclicInherit 7, .int 3⟩ ∧
    (GroupObj.call (.cyclicInherit 7) (.int 5)).result = .ok ⟨.cyclicInherit 7, .int 5⟩ ∧
    (Element.mul ⟨.cyclicInherit 7, .int 3⟩ ⟨.cyclicInherit 7, .int 5⟩).result
      = .ok ⟨.cyclicInherit 7, .int 1⟩ ∧
    Element.displayStr ⟨.cyclicInherit 7, .int 1⟩ = "1_C7" := by
  decide

/-- C5, counterexample: `GeneralLinearGroup(2)` accepts the 2 × 2 array of
strings `[["a","b"],["c","d"]]`, which is not coercible to a *numeric*
square array — so validation does not succeed "exactly when the value is
coercible to a square numeric array". -/
theorem gln_validate_accepts_nonnumeric_cex :
    GeneralLinearGroup.validate 2 strMat = .ok () ∧
    coercesToNumericSquare 2 strMat = false := by
  decide

/-- C5, amended: the general linear group's validation succeeds exactly when
the value coerces to an array of shape `n × n`, numeric or not; in
particular a 2 × 2 array is accepted while a 3 × 3 array and a non-square
array are rejected with `InvalidValue`. -/
theorem gln_validate_square_iff :
    (∀ (n : ℤ) (v : PyVal),
      (GeneralLinearGroup.validate n v = .ok ()) ↔ coercesToSquare n v = true) ∧
    GeneralLinearGroup.validate 2 listMat = .ok () ∧
    GeneralLinearGroup.validate 2 mat3x3 = .error .valueError ∧
    GeneralLinearGroup.validate 2 matNonSquare = .error .valueError := by
  refine ⟨fun n v => ?_, by decide, by decide, by decide⟩
  unfold GeneralLinearGroup.validate coercesToSquare
  cases npAsarray v with
  | ok a =>
    show (if a.shape.map Int.ofNat = [n, n] then (Except.ok () : Except PyErr Unit)
          else .error .valueError) = .ok ()
        ↔ decide (a.shape.map Int.ofNat = [n, n]) = true
    split_ifs with h
    · simp [h]
    · simp [h]
  | error e =>
    show (Except.error e : Except PyErr Unit) = .ok () ↔ false = true
    simp

/-- C10: `GeneralLinearGroup(n)._validate` decides membership by coerced
shape alone — whenever coercion succeeds, validation succeeds iff the shape
is `(n, n)`, whatever the dtype — and any value of a matching shape is
wrapped in an element by the constructor (with exactly one validation
call). -/
theorem gln_validate_shape_only (n : ℤ) (v : PyVal) (a : NDArray)
    (h : npAsarray v = .ok a) :
    ((GeneralLinearGroup.validate n v = .ok ()) ↔ a.shape.map Int.ofNat = [n, n]) ∧
    (a.shape.map Int.ofNat = [n, n] →
      (Element.init (.generalLinear n) v).result = .ok ⟨.generalLinear n, v⟩ ∧
      (Element.init (.generalLinear n) v).validateCalls = 1) := by
  have hval : ∀ hs : a.shape.map Int.ofNat = [n, n],
      GeneralLinearGroup.validate n v = .ok () := by
    intro hs
    unfold GeneralLinearGroup.validate
    rw [h]
    show (if a.shape.map Int.ofNat = [n, n] then (Except.ok () : Except PyErr Unit)
          else .error .valueError) = .ok ()
    rw [if_pos hs]
  constructor
  · constructor
    · intro hok
      unfold GeneralLinearGroup.validate at hok
      rw [h] at hok
      replace hok : (if a.shape.map Int.ofNat = [n, n] then (Except.ok () : Except PyErr Unit)
          else .error .valueError) = .ok () := hok
      by_contra hs
      rw [if_neg hs] at hok
      cases hok
    · exact hval
  · intro hs
    simp only [Element.init, GroupObj.validateMethod, hval hs]
    trivial

/-- C10, witness: at `n = 2` with the string array `[["a","b"],["c","d"]]`,
whose coercion has shape `(2, 2)` and string dtype. -/
theorem gln_validate_shape_only_witness :
    ((GeneralLinearGroup.validate 2 strMat = .ok ()) ↔
      (NDArray.shape ⟨[2, 2], .str, [], ["a", "b", "c", "d"]⟩).map Int.ofNat = [2, 2]) ∧
    ((NDArray.shape ⟨[2, 2], .str, [], ["a", "b", "c", "d"]⟩).map Int.ofNat = [2, 2] →
      (Element.init (.generalLinear 2) strMat).result = .ok ⟨.generalLinear 2, strMat⟩ ∧
      (Element.init (.generalLinear 2) strMat).validateCalls = 1) :=
  gln_validate_shape_only 2 strMat ⟨[2, 2], .str, [], ["a", "b", "c", "d"]⟩ (by decide)

/-- C6, counterexample: the nested list `[[1,0],[0,1]]` passes
`GeneralLinearGroup(2)._validate` (it coerces to shape `(2,2)`), yet the
group operation on two such valid members raises `TypeError` (`list @ list`
is unsupported), so the operation's result is not a valid member — closure
fails as stated. -/
theorem closure_fails_on_list_values_cex :
    GeneralLinearGroup.validate 2 listMat = .ok () ∧
    GroupObj.operation (.generalLinear 2) listMat listMat = .error .typeError := by
  decide

/-- C6, amended: closure holds for the cyclic variant on all valid values,
and for the general linear variant when both valid values are non-string
ndarrays; for other values that pass the (shape-only) validation, such as
plain nested lists, the operation raises instead of producing a member. -/
theorem closure_amended :
    (∀ (n : ℤ) (a b : PyVal),
      CyclicGroupInherit.validate n a = .ok () →
      CyclicGroupInherit.validate n b = .ok () →
      ∃ r, GroupObj.operation (.cyclicInherit n) a b = .ok r ∧
           CyclicGroupInherit.validate n r = .ok ()) ∧
    (∀ (m : ℕ) (A B : NDArray),
      A.dtype ≠ .str → B.dtype ≠ .str →
      A.shape = [m, m] → B.shape = [m, m] →
      ∃ r, GroupObj.operation (.generalLinear (m : ℤ)) (.ndarray A) (.ndarray B)
             = .ok (.ndarray r) ∧
           GeneralLinearGroup.validate (m : ℤ) (.ndarray r) = .ok ()) := by
  constructor
  · intro n a b ha hb
    obtain ⟨i, rfl, hi0, hin⟩ := cyclicInherit_validate_ok_iff.mp ha
    obtain ⟨j, rfl, hj0, hjn⟩ := cyclicInherit_validate_ok_iff.mp hb
    refine ⟨.int ((i + j) % n), ?_, ?_⟩
    · exact cyclicOp_int hi0 hin
    · have hn : 0 < n := lt_of_le_of_lt hi0 hin
      exact cyclicInherit_validate_ok_iff.mpr
        ⟨(i + j) % n, rfl, Int.emod_nonneg _ (by omega), Int.emod_lt_of_pos _ hn⟩
  · intro m A B hA hB hsA hsB
    refine ⟨⟨[m, m], dtJoin A.dtype B.dtype, matData m m m A.nums B.nums, []⟩, ?_, ?_⟩
    · exact ndOp_ok (m : ℤ) m A B hA hB hsA hsB
    · exact gln_validate_ndarray_ok m _ rfl

/-- C6, witness: closure instances at `CyclicGroupInherit(5)` with 2 and 3,
and at `GeneralLinearGroup(2)` with two copies of the integer identity
ndarray. -/
theorem closure_amended_witness :
    (∃ r, GroupObj.operation (.cyclicInherit 5) (.int 2) (.int 3) = .ok r ∧
          CyclicGroupInherit.validate 5 r = .ok ()) ∧
    (∃ r, GroupObj.operation (.generalLinear ((2 : ℕ) : ℤ)) (.ndarray eye2) (.ndarray eye2)
            = .ok (.ndarray r) ∧
          GeneralLinearGroup.validate ((2 : ℕ) : ℤ) (.ndarray r) = .ok ()) :=
  ⟨closure_amended.1 5 (.int 2) (.int 3) (by decide) (by decide),
   closure_amended.2 2 eye2 eye2 (by decide) (by decide) (by decide) (by decide)⟩

/-- C7: both `__repr__` methods build the representation from the runtime
class name — `VariantName(n)` for groups, and
`Element(group_repr, value_repr)` for elements — with the spec's concrete
examples evaluated. -/
theorem debug_repr_format :
    (∀ g : GroupObj, g.reprStr = g.className ++ "(" ++ toString g.param ++ ")") ∧
    GroupObj.reprStr (.cyclicStandalone 5) = "CyclicGroup(5)" ∧
    GroupObj.reprStr (.cyclicInherit 5) = "CyclicGroupInherit(5)" ∧
    GroupObj.reprStr (.generalLinear 3) = "GeneralLinearGroup(3)" ∧
    (∀ (g : GroupObj) (v : PyVal),
      Element.reprStr ⟨g, v⟩ = "Element" ++ "(" ++ g.reprStr ++ ", " ++ pyReprVal v ++ ")") ∧
    Element.reprStr ⟨.cyclicInherit 5, .int 3⟩ = "Element(CyclicGroupInherit(5), 3)" :=
  ⟨fun _ => rfl, by decide, by decide, by decide, fun _ _ => rfl, by decide⟩

/-- C8: for every valid value `a` of a cyclic group of order `n`,
`operation(0, a) == a` and `operation(a, 0) == a` — for the inheriting
variant and for the standalone variant's identically-defined operation. -/
theorem cyclic_identity (n : ℤ) (v : PyVal)
    (h : CyclicGroupInherit.validate n v = .ok ()) :
    GroupObj.operation (.cyclicInherit n) (.int 0) v = .ok v ∧
    GroupObj.operation (.cyclicInherit n) v (.int 0) = .ok v ∧
    GroupObj.operation (.cyclicStandalone n) (.int 0) v = .ok v ∧
    GroupObj.operation (.cyclicStandalone n) v (.int 0) = .ok v := by
  obtain ⟨i, rfl, hi0, hin⟩ := cyclicInherit_validate_ok_iff.mp h
  have hl : cyclicOp n (.int 0) (.int i) = .ok (.int i) := by
    rw [cyclicOp_int le_rfl (lt_of_le_of_lt hi0 hin), zero_add,
        Int.emod_eq_of_lt hi0 hin]
  have hr : cyclicOp n (.int i) (.int 0) = .ok (.int i) := by
    rw [cyclicOp_int hi0 hin, add_zero, Int.emod_eq_of_lt hi0 hin]
  exact ⟨hl, hr, hl, hr⟩

/-- C8, witness: identity instances at `CyclicGroupInherit(5)` with the
valid value 3. -/
theorem cyclic_identity_witness :
    GroupObj.operation (.cyclicInherit 5) (.int 0) (.int 3) = .ok (.int 3) ∧
    GroupObj.operation (.cyclicInherit 5) (.int 3) (.int 0) = .ok (.int 3) ∧
    GroupObj.operation (.cyclicStandalone 5) (.int 0) (.int 3) = .ok (.int 3) ∧
    GroupObj.operation (.cyclicStandalone 5) (.int 3) (.int 0) = .ok (.int 3) :=
  cyclic_identity 5 (.int 3) (by decide)

/-- C9, counterexample: with the valid `GeneralLinearGroup(2)` members
`a = b = [[1,0],[0,1]]` (a nested list) and `c` the identity ndarray,
`operation(operation(a,b), c)` raises `TypeError` at the inner step, while
`operation(a, operation(b,c))` evaluates to an array — so associativity
fails on valid values as stated. -/
theorem assoc_fails_mixed_list_array_cex :
    GeneralLinearGroup.validate 2 listMat = .ok () ∧
    GeneralLinearGroup.validate 2 (.ndarray eye2) = .ok () ∧
    GroupObj.operation (.generalLinear 2) listMat listMat = .error .typeError ∧
    (∃ bc q, GroupObj.operation (.generalLinear 2) listMat (.ndarray eye2) = .ok bc ∧
             GroupObj.operation (.generalLinear 2) listMat bc = .ok q) :=
  ⟨by decide, by decide, by decide, ⟨_, _, rfl, rfl⟩⟩

/-- C9, amended: associativity holds for the cyclic variant on all valid
values; for the general linear variant it does not hold — the shape-only
validation admits members (plain nested lists here; in numpy also float64
arrays subject to rounding and overflow) on which the two associations of
the same valid triple disagree, one raising `TypeError` while the other
returns an array. -/
theorem assoc_amended :
    (∀ (n : ℤ) (a b c : PyVal),
      CyclicGroupInherit.validate n a = .ok () →
      CyclicGroupInherit.validate n b = .ok () →
      CyclicGroupInherit.validate n c = .ok () →
      (GroupObj.operation (.cyclicInherit n) a b).bind
          (fun ab => GroupObj.operation (.cyclicInherit n) ab c)
        = (GroupObj.operation (.cyclicInherit n) b c).bind
          (fun bc => GroupObj.operation (.cyclicInherit n) a bc)) ∧
    (∃ (a b c : PyVal),
      GeneralLinearGroup.validate 2 a = .ok () ∧
      GeneralLinearGroup.validate 2 b = .ok () ∧
      GeneralLinearGroup.validate 2 c = .ok () ∧
      (GroupObj.operation (.generalLinear 2) a b).bind
          (fun ab => GroupObj.operation (.generalLinear 2) ab c)
        ≠ (GroupObj.operation (.generalLinear 2) b c).bind
          (fun bc => GroupObj.operation (.generalLinear 2) a bc)) := by
  constructor
  · intro n a b c ha hb hc
    obtain ⟨i, rfl, hi0, hin⟩ := cyclicInherit_validate_ok_iff.mp ha
    obtain ⟨j, rfl, hj0, hjn⟩ := cyclicInherit_validate_ok_iff.mp hb
    obtain ⟨k, rfl, hk0, hkn⟩ := cyclicInherit_validate_ok_iff.mp hc
    have hn : 0 < n := lt_of_le_of_lt hi0 hin
    show (cyclicOp n (.int i) (.int j)).bind (fun ab => cyclicOp n ab (.int k))
        = (cyclicOp n (.int j) (.int k)).bind (fun bc => cyclicOp n (.int i) bc)
    rw [cyclicOp_int hi0 hin, cyclicOp_int hj0 hjn]
    show cyclicOp n (.int ((i + j) % n)) (.int k)
        = cyclicOp n (.int i) (.int ((j + k) % n))
    rw [cyclicOp_int (Int.emod_nonneg _ (by omega)) (Int.emod_lt_of_pos _ hn),
        cyclicOp_int hi0 hin]
    rw [Int.emod_add_emod, Int.add_emod_emod, add_assoc]
  · refine ⟨listMat, listMat, .ndarray eye2, by decide, by decide, by decide, ?_⟩
    have hL : (GroupObj.operation (.generalLinear 2) listMat listMat).bind
        (fun ab => GroupObj.operation (.generalLinear 2) ab (.ndarray eye2))
          = .error .typeError := rfl
    have hR : ∃ q, (GroupObj.operation (.generalLinear 2) listMat (.ndarray eye2)).bind
        (fun bc => GroupObj.operation (.generalLinear 2) listMat bc) = .ok q := ⟨_, rfl⟩
    obtain ⟨q, hq⟩ := hR
    intro h
    rw [hL, hq] at h
    exact Except.noConfusion h

/-- C9, witness for the amended theorem: the cyclic branch instantiated at
`CyclicGroupInherit(7)` with the valid values 3, 5, 6, together with the
general linear failure the theorem exhibits. -/
theorem assoc_amended_witness :
    ((GroupObj.operation (.cyclicInherit 7) (.int 3) (.int 5)).bind
        (fun ab => GroupObj.operation (.cyclicInherit 7) ab (.int 6))
      = (GroupObj.operation (.cyclicInherit 7) (.int 5) (.int 6)).bind
        (fun bc => GroupObj.operation (.cyclicInherit 7) (.int 3) bc)) ∧
    (∃ (a b c : PyVal),
      GeneralLinearGroup.validate 2 a = .ok () ∧
      GeneralLinearGroup.validate 2 b = .ok () ∧
      GeneralLinearGroup.validate 2 c = .ok () ∧
      (GroupObj.operation (.generalLinear 2) a b).bind
          (fun ab => GroupObj.operation (.generalLinear 2) ab c)
        ≠ (GroupObj.operation (.generalLinear 2) b c).bind
          (fun bc => GroupObj.operation (.generalLinear 2) a bc)) :=
  ⟨assoc_amended.1 7 (.int 3) (.int 5) (.int 6) (by decide) (by decide) (by decide),
   assoc_amended.2⟩
